import Mathlib

/-!
Verification of the voice MVP HTTP backend (`src/server.ts`).

The server is a thin proxy with two POST endpoints (`/tts` forwarding to an
ElevenLabs text-to-speech API, `/explain` forwarding to an OpenAI vision
chat-completion API), a shared-secret auth middleware, and a static/SPA
fallback for GET requests.  We embed each handler as a pure function of the
immutable configuration, the inbound request, and the outcome of the single
outbound vendor `fetch` call (supplied as an oracle parameter), and prove the
specification's claims about the resulting responses.
-/

/-- Immutable configuration read from the environment at process start.
`process.env.X` is `string | undefined`, modelled as `Option String`. -/
structure Config where
  authTokenEnv : Option String
  elevenApiKey : Option String
  elevenVoiceId : Option String
  openaiApiKey : Option String
deriving Repr, DecidableEq

/-- JavaScript falsiness of a `string | undefined` value:
`undefined` and the empty string are falsy. -/
def jsFalsy : Option String → Bool
  | none => true
  | some s => decide (s = "")

/-- JavaScript `v || d` for `v : string | undefined`: the default is taken
exactly when `v` is falsy (absent or empty). -/
def jsTruthyOr (v : Option String) (d : String) : String :=
  match v with
  | none => d
  | some s => if s = "" then d else s

/-- `const AUTH_TOKEN = process.env.AUTH_TOKEN || ""` (server.ts line 8). -/
def authTokenOf (cfg : Config) : String :=
  jsTruthyOr cfg.authTokenEnv ""

/-- `requireAuth` middleware (server.ts lines 10-15): `true` means the request
is passed through to the handler (`next()`), `false` means a 401 is sent.
If the configured token is empty auth is disabled; otherwise the
`x-auth-token` header must equal it exactly. -/
def requireAuth (authToken : String) (headerToken : Option String) : Bool :=
  if authToken = "" then true
  else decide (headerToken = some authToken)

/-- Caller-supplied voice tuning settings in the `/tts` body; every field is
optional (`undefined` when absent).  Numeric values are carried opaquely, so
we model them as rationals. -/
structure VoiceSettingsIn where
  stability : Option ℚ
  similarity_boost : Option ℚ
  style : Option ℚ
  use_speaker_boost : Option Bool
deriving Repr, DecidableEq

/-- JSON body of a `/tts` request (server.ts lines 20-28). -/
structure TtsBody where
  text : Option String
  settings : Option VoiceSettingsIn
deriving Repr, DecidableEq

/-- A `/tts` request: the `x-auth-token` header, the JSON body, and the
`format` query parameter. -/
structure TtsRequest where
  headerAuthToken : Option String
  body : TtsBody
  queryFormat : Option String
deriving Repr, DecidableEq

/-- The blank-text validation `!text || !text.trim()` (server.ts line 30):
true when `text` is absent, empty, or whitespace-only (the trimmed string is
empty exactly when every character is whitespace). -/
def textBlank : Option String → Bool
  | none => true
  | some s => decide (s = "") || s.data.all Char.isWhitespace

/-- `const format = (req.query.format as string) || "wav_22050"`
(server.ts line 44). -/
def resolveFormat (q : Option String) : String :=
  jsTruthyOr q "wav_22050"

/-- `s.startsWith(p)`, computed on the underlying character lists. -/
def strStartsWith (s p : String) : Bool :=
  List.isPrefixOf p.data s.data

/-- `const isWav = format.startsWith("wav_")` (server.ts line 49). -/
def ttsIsWav (req : TtsRequest) : Bool :=
  strStartsWith (resolveFormat req.queryFormat) "wav_"

/-- `const accept = isWav ? "audio/wav" : "audio/mpeg"` (server.ts line 50). -/
def ttsAccept (req : TtsRequest) : String :=
  if ttsIsWav req then "audio/wav" else "audio/mpeg"

/-- The `Content-Disposition` header value built at server.ts lines 87-90. -/
def speechDisposition (isWav : Bool) : String :=
  "inline; filename=\"speech." ++ (if isWav then "wav" else "mp3") ++ "\""

/-- JSON body of the outbound ElevenLabs request (server.ts lines 63-72).
The `??` nullish-coalescing defaults preserve caller-supplied zero/false. -/
structure TtsOutboundBody where
  text : String
  model_id : String
  stability : ℚ
  similarity_boost : ℚ
  style : ℚ
  use_speaker_boost : Bool
deriving Repr, DecidableEq

/-- The outbound ElevenLabs call: URL components (voice id and
`output_format` query value), the `Accept` header, and the JSON body. -/
structure TtsOutbound where
  voiceId : String
  output_format : String
  accept : String
  body : TtsOutboundBody
deriving Repr, DecidableEq

/-- Builds the outbound ElevenLabs request (server.ts lines 44-74), merging
caller settings over the fixed defaults with `??`. -/
def ttsResolvedOutbound (cfg : Config) (req : TtsRequest) : TtsOutbound :=
  { voiceId := cfg.elevenVoiceId.getD ""
    output_format := resolveFormat req.queryFormat
    accept := ttsAccept req
    body :=
      { text := req.body.text.getD ""
        model_id := "eleven_multilingual_v2"
        stability := (req.body.settings.bind VoiceSettingsIn.stability).getD (2/10)
        similarity_boost :=
          (req.body.settings.bind VoiceSettingsIn.similarity_boost).getD (9/10)
        style := (req.body.settings.bind VoiceSettingsIn.style).getD (3/10)
        use_speaker_boost :=
          (req.body.settings.bind VoiceSettingsIn.use_speaker_boost).getD true } }

/-- A thrown JavaScript value as seen by the `catch` blocks:
`err?.message` and `String(err)`. -/
structure JsError where
  message : Option String
  asString : String
deriving Repr, DecidableEq

/-- `err?.message || String(err)` (server.ts lines 99 and 179). -/
def errDetail (e : JsError) : String :=
  jsTruthyOr e.message e.asString

/-- Outcome of the outbound `fetch` to the TTS vendor: either the awaited
promise rejects (network error or timeout abort), or a response arrives with
a status, its body readable as text (consumed on the error path), and the
audio bytes (consumed on the success path). -/
inductive TtsFetch where
  | thrown (e : JsError)
  | reply (status : Nat) (errText : String) (audio : List Nat)
deriving Repr, DecidableEq

/-- The fetch `Response.ok` flag: status in the range 200-299. -/
def respOk (status : Nat) : Bool :=
  200 ≤ status && status ≤ 299

/-- A response sent back to the API caller: a JSON error envelope
`{ error, detail? }` with a status, the audio success response with its
headers, or the `/explain` JSON success body. -/
inductive ApiResponse where
  | jsonError (status : Nat) (error : String) (detail : Option String)
  | audio (contentType : String) (contentDisposition : String)
      (xAudioFormat : String) (bytes : List Nat)
  | jsonExplanation (explanation : String)
deriving Repr, DecidableEq

/-- The HTTP status of an `ApiResponse` (success paths use `res.send` /
`res.json` with the default 200). -/
def ApiResponse.statusOf : ApiResponse → Nat
  | jsonError s _ _ => s
  | audio _ _ _ _ => 200
  | jsonExplanation _ => 200

/-- What a `/tts` handler invocation produces: the response to the caller and
the outbound vendor request, when one was made. -/
structure TtsOutput where
  response : ApiResponse
  vendorCall : Option TtsOutbound
deriving Repr, DecidableEq

/-- The part of the `/tts` handler after the vendor call returns
(server.ts lines 76-101): relay vendor errors with their status, send the
audio with content-type / disposition / `X-Audio-Format` headers on success,
and turn a thrown failure into a 500 in the `catch` block. -/
def ttsVendorPhase (req : TtsRequest) (fetchResult : TtsFetch) : ApiResponse :=
  match fetchResult with
  | .thrown e => .jsonError 500 "TTS failed" (some (errDetail e))
  | .reply status errText audio =>
    if respOk status then
      .audio (ttsAccept req) (speechDisposition (ttsIsWav req))
        (resolveFormat req.queryFormat) audio
    else
      .jsonError status "TTS failed" (some errText)

/-- The `/tts` handler body (server.ts lines 18-102), after `requireAuth`:
validate `text`, check the ElevenLabs credentials, then perform the vendor
call and relay its outcome. -/
def ttsHandlerBody (cfg : Config) (req : TtsRequest) (fetchResult : TtsFetch) :
    TtsOutput :=
  if textBlank req.body.text then
    ⟨.jsonError 400 "text is required" none, none⟩
  else if jsFalsy cfg.elevenApiKey || jsFalsy cfg.elevenVoiceId then
    ⟨.jsonError 500 "Missing ELEVENLABS_API_KEY or ELEVENLABS_VOICE_ID" none, none⟩
  else
    ⟨ttsVendorPhase req fetchResult, some (ttsResolvedOutbound cfg req)⟩

/-- The full `POST /tts` endpoint: `requireAuth` middleware, then the handler
body. A failed auth check sends 401 and the handler (hence the vendor call)
never runs. -/
def ttsEndpoint (cfg : Config) (req : TtsRequest) (fetchResult : TtsFetch) :
    TtsOutput :=
  if requireAuth (authTokenOf cfg) req.headerAuthToken then
    ttsHandlerBody cfg req fetchResult
  else
    ⟨.jsonError 401 "Unauthorized" none, none⟩

/-- A `/explain` request: the `x-auth-token` header and the JSON body fields
(server.ts lines 107-110). -/
structure ExplainRequest where
  headerAuthToken : Option String
  imageBase64 : Option String
  mimeType : Option String
deriving Repr, DecidableEq

/-- `message` object inside a completion choice; `content` may be absent. -/
structure ChoiceMessage where
  content : Option String
deriving Repr, DecidableEq

/-- One element of the vendor's `choices` array; `message` may be absent. -/
structure Choice where
  message : Option ChoiceMessage
deriving Repr, DecidableEq

/-- The vendor's parsed success JSON: the `choices` array may itself be
missing. -/
structure OpenAIData where
  choices : Option (List Choice)
deriving Repr, DecidableEq

/-- The optional-chaining extraction `data.choices?.[0]?.message?.content`
(server.ts line 172). -/
def extractContent (d : OpenAIData) : Option String :=
  ((d.choices.bind List.head?).bind Choice.message).bind ChoiceMessage.content

/-- `data.choices?.[0]?.message?.content || "No explanation generated"`
(server.ts line 172). -/
def explanationOf (d : OpenAIData) : String :=
  jsTruthyOr (extractContent d) "No explanation generated"

/-- Outcome of the outbound `fetch` to OpenAI: a rejection, or a response
with a status, the `err.error?.message` field of the error JSON (none when
the body fails to parse, producing `{}`), and the parsed success data. -/
inductive ExplainFetch where
  | thrown (e : JsError)
  | reply (status : Nat) (errMessage : Option String) (data : OpenAIData)
deriving Repr, DecidableEq

/-- The outbound OpenAI request (server.ts lines 122-161): fixed model, the
image data URI with the supplied-or-default mime type, and the fixed token
budget and temperature. -/
structure ExplainOutbound where
  model : String
  imageUrl : String
  max_tokens : Nat
  temperature : ℚ
deriving Repr, DecidableEq

/-- Builds the outbound OpenAI request for a `/explain` call. -/
def explainResolvedOutbound (req : ExplainRequest) : ExplainOutbound :=
  { model := "gpt-4o"
    imageUrl := "data:" ++ jsTruthyOr req.mimeType "image/jpeg" ++ ";base64,"
      ++ req.imageBase64.getD ""
    max_tokens := 1500
    temperature := 7/10 }

/-- What a `/explain` handler invocation produces. -/
structure ExplainOutput where
  response : ApiResponse
  vendorCall : Option ExplainOutbound
deriving Repr, DecidableEq

/-- The `/explain` handler body (server.ts lines 105-182), after
`requireAuth`: validate `imageBase64`, check the OpenAI key, perform the
vendor call, relay errors (with `err.error?.message || "Unknown error"` as
detail) or extract the explanation, and catch thrown failures as 500. -/
def explainHandlerBody (cfg : Config) (req : ExplainRequest)
    (fetchResult : ExplainFetch) : ExplainOutput :=
  if jsFalsy req.imageBase64 then
    ⟨.jsonError 400 "imageBase64 is required" none, none⟩
  else if jsFalsy cfg.openaiApiKey then
    ⟨.jsonError 500 "Missing OPENAI_API_KEY" none, none⟩
  else
    match fetchResult with
    | .thrown e =>
      ⟨.jsonError 500 "Explanation failed" (some (errDetail e)),
        some (explainResolvedOutbound req)⟩
    | .reply status errMessage data =>
      if respOk status then
        ⟨.jsonExplanation (explanationOf data), some (explainResolvedOutbound req)⟩
      else
        ⟨.jsonError status "OpenAI API failed"
            (some (jsTruthyOr errMessage "Unknown error")),
          some (explainResolvedOutbound req)⟩

/-- The full `POST /explain` endpoint: `requireAuth` middleware, then the
handler body. -/
def explainEndpoint (cfg : Config) (req : ExplainRequest)
    (fetchResult : ExplainFetch) : ExplainOutput :=
  if requireAuth (authTokenOf cfg) req.headerAuthToken then
    explainHandlerBody cfg req fetchResult
  else
    ⟨.jsonError 401 "Unauthorized" none, none⟩

/-- The SPA fallback route pattern (server.ts line 206): the regular
expression matches exactly the paths that do not start with `/tts` or
`/explain`, via a negative lookahead. -/
def spaRouteMatches (p : String) : Bool :=
  !(strStartsWith p "/tts" || strStartsWith p "/explain")

/-- Result of dispatching a GET request: a static asset from the web root,
the SPA index document, or Express's default 404 when nothing matches. -/
inductive GetResult where
  | staticAsset (bytes : List Nat)
  | spaIndex
  | notFound
deriving Repr, DecidableEq

/-- GET dispatch (server.ts lines 201-208): `express.static` first, then the
SPA fallback route sending `index.html`.  `staticFile` is the static file
server treated as an oracle from path to file bytes. -/
def getDispatch (staticFile : String → Option (List Nat)) (p : String) :
    GetResult :=
  match staticFile p with
  | some b => .staticAsset b
  | none => if spaRouteMatches p then .spaIndex else .notFound

/-! ## Claims -/

/-- C1: For every POST /tts request whose body field `text` is absent, empty,
or whitespace-only, the handler responds with status 400 and a JSON error
object, regardless of any other fields; likewise, for every POST /explain
request whose body lacks `imageBase64`, the handler responds with status 400
and a JSON error object. -/
theorem tts_explain_blank_input_returns_400
    (cfg : Config) (req : TtsRequest) (f : TtsFetch)
    (ereq : ExplainRequest) (ef : ExplainFetch)
    (ht : textBlank req.body.text = true)
    (hi : ereq.imageBase64 = none) :
    (ttsHandlerBody cfg req f).response = .jsonError 400 "text is required" none ∧
    (explainHandlerBody cfg ereq ef).response =
      .jsonError 400 "imageBase64 is required" none := by
  constructor
  · simp [ttsHandlerBody, ht]
  · simp [explainHandlerBody, hi, jsFalsy]

/-- Witness for C1: concrete whitespace-only text and a concrete body with no
`imageBase64`. -/
theorem tts_explain_blank_input_returns_400_witness :
    (ttsHandlerBody ⟨none, none, none, none⟩
        ⟨none, ⟨some "  ", none⟩, some "mp3_44100"⟩ (.reply 200 "" [])).response =
      .jsonError 400 "text is required" none ∧
    (explainHandlerBody ⟨none, none, none, none⟩
        ⟨none, none, some "image/png"⟩ (.reply 200 none ⟨none⟩)).response =
      .jsonError 400 "imageBase64 is required" none :=
  tts_explain_blank_input_returns_400 _ _ _ _ _ (by decide) rfl

/-- C10: Input validation precedes the server-configuration check on both
endpoints: blank `text` yields 400 (never the 500 missing-credential error)
even when the ElevenLabs credentials are unconfigured, and a missing
`imageBase64` yields 400 even when the OpenAI key is unconfigured. -/
theorem validation_precedes_config_check
    (cfg : Config) (req : TtsRequest) (f : TtsFetch)
    (ereq : ExplainRequest) (ef : ExplainFetch)
    (ht : textBlank req.body.text = true)
    (hcred : jsFalsy cfg.elevenApiKey = true ∨ jsFalsy cfg.elevenVoiceId = true)
    (hi : ereq.imageBase64 = none)
    (ho : jsFalsy cfg.openaiApiKey = true) :
    (ttsHandlerBody cfg req f).response.statusOf = 400 ∧
    (ttsHandlerBody cfg req f).response ≠
      .jsonError 500 "Missing ELEVENLABS_API_KEY or ELEVENLABS_VOICE_ID" none ∧
    (explainHandlerBody cfg ereq ef).response.statusOf = 400 ∧
    (explainHandlerBody cfg ereq ef).response ≠
      .jsonError 500 "Missing OPENAI_API_KEY" none := by
  refine ⟨?_, ?_, ?_, ?_⟩ <;>
    simp [ttsHandlerBody, explainHandlerBody, ht, hi, jsFalsy,
      ApiResponse.statusOf]

/-- Witness for C10: every credential unset, blank text and missing image. -/
theorem validation_precedes_config_check_witness :
    (ttsHandlerBody ⟨none, none, none, none⟩
        ⟨none, ⟨some "", none⟩, none⟩ (.reply 200 "" [])).response.statusOf = 400 ∧
    (ttsHandlerBody ⟨none, none, none, none⟩
        ⟨none, ⟨some "", none⟩, none⟩ (.reply 200 "" [])).response ≠
      .jsonError 500 "Missing ELEVENLABS_API_KEY or ELEVENLABS_VOICE_ID" none ∧
    (explainHandlerBody ⟨none, none, none, none⟩
        ⟨none, none, none⟩ (.reply 200 none ⟨none⟩)).response.statusOf = 400 ∧
    (explainHandlerBody ⟨none, none, none, none⟩
        ⟨none, none, none⟩ (.reply 200 none ⟨none⟩)).response ≠
      .jsonError 500 "Missing OPENAI_API_KEY" none :=
  validation_precedes_config_check _ _ _ _ _ (by decide) (Or.inl rfl) rfl rfl

/-- C2: For every API request (POST /tts or POST /explain): if the configured
AUTH_TOKEN is empty or unset the auth gate passes the request through
unchanged; if AUTH_TOKEN is non-empty and the request's `x-auth-token` header
is missing or not exactly equal to AUTH_TOKEN, the response is 401 with a
fixed error body and no vendor call is attempted. -/
theorem auth_gate_disabled_or_401
    (cfg : Config) (req : TtsRequest) (f : TtsFetch)
    (ereq : ExplainRequest) (ef : ExplainFetch) :
    (authTokenOf cfg = "" →
      ttsEndpoint cfg req f = ttsHandlerBody cfg req f ∧
      explainEndpoint cfg ereq ef = explainHandlerBody cfg ereq ef) ∧
    (authTokenOf cfg ≠ "" → req.headerAuthToken ≠ some (authTokenOf cfg) →
      ttsEndpoint cfg req f = ⟨.jsonError 401 "Unauthorized" none, none⟩) ∧
    (authTokenOf cfg ≠ "" → ereq.headerAuthToken ≠ some (authTokenOf cfg) →
      explainEndpoint cfg ereq ef = ⟨.jsonError 401 "Unauthorized" none, none⟩) := by
  refine ⟨fun h => ⟨?_, ?_⟩, fun h hm => ?_, fun h hm => ?_⟩
  · simp [ttsEndpoint, requireAuth, h]
  · simp [explainEndpoint, requireAuth, h]
  · simp [ttsEndpoint, requireAuth, h, hm]
  · simp [explainEndpoint, requireAuth, h, hm]

/-- Witness for C2: with no AUTH_TOKEN configured the endpoints equal their
handler bodies; with AUTH_TOKEN set and the header absent both endpoints
return 401 with no vendor call. -/
theorem auth_gate_disabled_or_401_witness :
    (ttsEndpoint ⟨none, some "k", some "v", some "o"⟩
        ⟨none, ⟨some "hi", none⟩, none⟩ (.reply 200 "" [1]) =
      ttsHandlerBody ⟨none, some "k", some "v", some "o"⟩
        ⟨none, ⟨some "hi", none⟩, none⟩ (.reply 200 "" [1])) ∧
    (ttsEndpoint ⟨some "secret", some "k", some "v", some "o"⟩
        ⟨none, ⟨some "hi", none⟩, none⟩ (.reply 200 "" [1]) =
      ⟨.jsonError 401 "Unauthorized" none, none⟩) ∧
    (explainEndpoint ⟨some "secret", some "k", some "v", some "o"⟩
        ⟨some "wrong", some "img", none⟩ (.reply 200 none ⟨none⟩) =
      ⟨.jsonError 401 "Unauthorized" none, none⟩) := by
  refine ⟨?_, ?_, ?_⟩
  · exact ((auth_gate_disabled_or_401 ⟨none, some "k", some "v", some "o"⟩
      ⟨none, ⟨some "hi", none⟩, none⟩ (.reply 200 "" [1])
      ⟨none, some "img", none⟩ (.reply 200 none ⟨none⟩)).1 rfl).1
  · exact (auth_gate_disabled_or_401 ⟨some "secret", some "k", some "v", some "o"⟩
      ⟨none, ⟨some "hi", none⟩, none⟩ (.reply 200 "" [1])
      ⟨some "wrong", some "img", none⟩ (.reply 200 none ⟨none⟩)).2.1
      (by decide) (by decide)
  · exact (auth_gate_disabled_or_401 ⟨some "secret", some "k", some "v", some "o"⟩
      ⟨none, ⟨some "hi", none⟩, none⟩ (.reply 200 "" [1])
      ⟨some "wrong", some "img", none⟩ (.reply 200 none ⟨none⟩)).2.2
      (by decide) (by decide)

/-- C4: For every POST /tts request where the TTS vendor responds with a
non-success (non-2xx) status, the proxy's response status equals the vendor's
status code and the body is a JSON object whose `detail` field is exactly the
vendor's raw error body text. -/
theorem tts_vendor_error_relayed
    (cfg : Config) (req : TtsRequest) (status : Nat) (errText : String)
    (audio : List Nat)
    (ht : textBlank req.body.text = false)
    (hk : jsFalsy cfg.elevenApiKey = false)
    (hv : jsFalsy cfg.elevenVoiceId = false)
    (hbad : respOk status = false) :
    (ttsHandlerBody cfg req (.reply status errText audio)).response =
      .jsonError status "TTS failed" (some errText) ∧
    (ttsHandlerBody cfg req (.reply status errText audio)).response.statusOf =
      status := by
  constructor <;>
    simp [ttsHandlerBody, ht, hk, hv, ttsVendorPhase, hbad, ApiResponse.statusOf]

/-- Witness for C4: a vendor 422 with a concrete error body is relayed. -/
theorem tts_vendor_error_relayed_witness :
    (ttsHandlerBody ⟨none, some "k", some "v", none⟩
        ⟨none, ⟨some "hi", none⟩, none⟩ (.reply 422 "bad voice" [])).response =
      .jsonError 422 "TTS failed" (some "bad voice") ∧
    (ttsHandlerBody ⟨none, some "k", some "v", none⟩
        ⟨none, ⟨some "hi", none⟩, none⟩ (.reply 422 "bad voice" [])).response.statusOf =
      422 :=
  tts_vendor_error_relayed _ _ _ _ _ (by decide) rfl rfl (by decide)

/-- C9: For every POST /tts or POST /explain request in which the awaited
vendor call throws (network error, timeout abort, or other failure), the
handler catches it and responds 500 with a JSON body whose `detail` field is
the exception's message (the handlers are total functions, so a request-level
failure never escapes them). -/
theorem unexpected_exception_caught_500
    (cfg : Config) (req : TtsRequest) (ereq : ExplainRequest) (e1 e2 : JsError)
    (ht : textBlank req.body.text = false)
    (hk : jsFalsy cfg.elevenApiKey = false)
    (hv : jsFalsy cfg.elevenVoiceId = false)
    (hi : jsFalsy ereq.imageBase64 = false)
    (ho : jsFalsy cfg.openaiApiKey = false) :
    (ttsHandlerBody cfg req (.thrown e1)).response =
      .jsonError 500 "TTS failed" (some (errDetail e1)) ∧
    (explainHandlerBody cfg ereq (.thrown e2)).response =
      .jsonError 500 "Explanation failed" (some (errDetail e2)) ∧
    (∀ m, e1.message = some m → m ≠ "" → errDetail e1 = m) ∧
    (∀ m, e2.message = some m → m ≠ "" → errDetail e2 = m) := by
  refine ⟨?_, ?_, ?_, ?_⟩
  · simp [ttsHandlerBody, ht, hk, hv, ttsVendorPhase]
  · simp [explainHandlerBody, hi, ho]
  · intro m hm hne; simp [errDetail, jsTruthyOr, hm, hne]
  · intro m hm hne; simp [errDetail, jsTruthyOr, hm, hne]

/-- Witness for C9: a concrete abort error on each endpoint yields a 500 with
the error message as detail. -/
theorem unexpected_exception_caught_500_witness :
    (ttsHandlerBody ⟨none, some "k", some "v", some "o"⟩
        ⟨none, ⟨some "hi", none⟩, none⟩
        (.thrown ⟨some "This operation was aborted", "AbortError"⟩)).response =
      .jsonError 500 "TTS failed" (some "This operation was aborted") ∧
    (explainHandlerBody ⟨none, some "k", some "v", some "o"⟩
        ⟨none, some "img", none⟩
        (.thrown ⟨some "fetch failed", "TypeError"⟩)).response =
      .jsonError 500 "Explanation failed" (some "fetch failed") := by
  have h := unexpected_exception_caught_500 ⟨none, some "k", some "v", some "o"⟩
    ⟨none, ⟨some "hi", none⟩, none⟩ ⟨none, some "img", none⟩
    ⟨some "This operation was aborted", "AbortError"⟩
    ⟨some "fetch failed", "TypeError"⟩
    (by decide) rfl rfl rfl rfl
  exact ⟨h.1, h.2.1⟩

/-- C5: For every POST /tts request that reaches the vendor call, the
outbound request body contains the caller's `text`, the fixed model
identifier `eleven_multilingual_v2`, and a voice_settings object where each
of stability, similarity_boost, style, and use_speaker_boost equals the
caller-supplied value when present (including zero/false) and otherwise the
defaults 0.2, 0.9, 0.3, and true respectively. -/
theorem tts_outbound_body_fields
    (cfg : Config) (req : TtsRequest) (f : TtsFetch)
    (ht : textBlank req.body.text = false)
    (hk : jsFalsy cfg.elevenApiKey = false)
    (hv : jsFalsy cfg.elevenVoiceId = false) :
    (ttsHandlerBody cfg req f).vendorCall = some (ttsResolvedOutbound cfg req) ∧
    (∀ t, req.body.text = some t → (ttsResolvedOutbound cfg req).body.text = t) ∧
    (ttsResolvedOutbound cfg req).body.model_id = "eleven_multilingual_v2" ∧
    (∀ s v, req.body.settings = some s → s.stability = some v →
      (ttsResolvedOutbound cfg req).body.stability = v) ∧
    (req.body.settings.bind VoiceSettingsIn.stability = none →
      (ttsResolvedOutbound cfg req).body.stability = 2/10) ∧
    (∀ s v, req.body.settings = some s → s.similarity_boost = some v →
      (ttsResolvedOutbound cfg req).body.similarity_boost = v) ∧
    (req.body.settings.bind VoiceSettingsIn.similarity_boost = none →
      (ttsResolvedOutbound cfg req).body.similarity_boost = 9/10) ∧
    (∀ s v, req.body.settings = some s → s.style = some v →
      (ttsResolvedOutbound cfg req).body.style = v) ∧
    (req.body.settings.bind VoiceSettingsIn.style = none →
      (ttsResolvedOutbound cfg req).body.style = 3/10) ∧
    (∀ s b, req.body.settings = some s → s.use_speaker_boost = some b →
      (ttsResolvedOutbound cfg req).body.use_speaker_boost = b) ∧
    (req.body.settings.bind VoiceSettingsIn.use_speaker_boost = none →
      (ttsResolvedOutbound cfg req).body.use_speaker_boost = true) := by
  refine ⟨by simp [ttsHandlerBody, ht, hk, hv], ?_, rfl, ?_, ?_, ?_, ?_, ?_, ?_, ?_, ?_⟩
  · intro t htt; simp [ttsResolvedOutbound, htt]
  · intro s v hs hsv; simp [ttsResolvedOutbound, hs, hsv]
  · intro hn; simp [ttsResolvedOutbound, hn]
  · intro s v hs hsv; simp [ttsResolvedOutbound, hs, hsv]
  · intro hn; simp [ttsResolvedOutbound, hn]
  · intro s v hs hsv; simp [ttsResolvedOutbound, hs, hsv]
  · intro hn; simp [ttsResolvedOutbound, hn]
  · intro s b hs hsb; simp [ttsResolvedOutbound, hs, hsb]
  · intro hn; simp [ttsResolvedOutbound, hn]

/-- Witness for C5: caller-supplied stability 0 and speaker boost false are
kept, unsupplied similarity and style fall back to 0.9 and 0.3. -/
theorem tts_outbound_body_fields_witness :
    (ttsHandlerBody ⟨none, some "k", some "v", none⟩
        ⟨none, ⟨some "hi", some ⟨some 0, none, none, some false⟩⟩, none⟩
        (.reply 200 "" [])).vendorCall =
      some (ttsResolvedOutbound ⟨none, some "k", some "v", none⟩
        ⟨none, ⟨some "hi", some ⟨some 0, none, none, some false⟩⟩, none⟩) ∧
    (ttsResolvedOutbound ⟨none, some "k", some "v", none⟩
        ⟨none, ⟨some "hi", some ⟨some 0, none, none, some false⟩⟩, none⟩).body.text =
      "hi" ∧
    (ttsResolvedOutbound ⟨none, some "k", some "v", none⟩
        ⟨none, ⟨some "hi", some ⟨some 0, none, none, some false⟩⟩, none⟩).body.stability =
      0 ∧
    (ttsResolvedOutbound ⟨none, some "k", some "v", none⟩
        ⟨none, ⟨some "hi", some ⟨some 0, none, none, some false⟩⟩, none⟩).body.use_speaker_boost =
      false ∧
    (ttsResolvedOutbound ⟨none, some "k", some "v", none⟩
        ⟨none, ⟨some "hi", some ⟨some 0, none, none, some false⟩⟩, none⟩).body.similarity_boost =
      9/10 ∧
    (ttsResolvedOutbound ⟨none, some "k", some "v", none⟩
        ⟨none, ⟨some "hi", some ⟨some 0, none, none, some false⟩⟩, none⟩).body.style =
      3/10 := by
  have h := tts_outbound_body_fields ⟨none, some "k", some "v", none⟩
    ⟨none, ⟨some "hi", some ⟨some 0, none, none, some false⟩⟩, none⟩
    (.reply 200 "" []) (by decide) rfl rfl
  exact ⟨h.1, h.2.1 "hi" rfl, h.2.2.2.1 _ 0 rfl rfl,
    h.2.2.2.2.2.2.2.2.2.1 _ false rfl rfl,
    h.2.2.2.2.2.2.1 rfl, h.2.2.2.2.2.2.2.2.1 rfl⟩

/-- C8: For every GET request whose path does not begin with /tts or /explain
and does not match a static asset, the response is the SPA index document,
never a 404. -/
theorem spa_fallback_serves_index
    (staticFile : String → Option (List Nat)) (p : String)
    (h1 : strStartsWith p "/tts" = false)
    (h2 : strStartsWith p "/explain" = false)
    (h3 : staticFile p = none) :
    getDispatch staticFile p = .spaIndex ∧
    getDispatch staticFile p ≠ .notFound := by
  constructor <;> simp [getDispatch, h3, spaRouteMatches, h1, h2]

/-- Witness for C8: a deep link with no matching static file is answered with
the SPA index. -/
theorem spa_fallback_serves_index_witness :
    getDispatch (fun _ => none) "/dashboard/42" = .spaIndex ∧
    getDispatch (fun _ => none) "/dashboard/42" ≠ .notFound :=
  spa_fallback_serves_index (fun _ => none) "/dashboard/42"
    (by decide) (by decide) rfl

/-- Helper: the default format `wav_22050` is WAV-prefixed. -/
theorem wav_default_is_wav : strStartsWith "wav_22050" "wav_" = true := by
  decide

/-- Counterexample for C3: the empty string is a supplied `format` query
value that does not start with `wav_`, yet `format || "wav_22050"` resolves
it to the WAV default, so the response carries `audio/wav` and a `.wav`
filename instead of the claimed `audio/mpeg` / `.mp3`. -/
theorem tts_empty_format_counterexample :
    strStartsWith "" "wav_" = false ∧
    (ttsHandlerBody ⟨none, some "k", some "v", none⟩
        ⟨none, ⟨some "hi", none⟩, some ""⟩ (.reply 200 "" [7])).response =
      .audio "audio/wav" "inline; filename=\"speech.wav\"" "wav_22050" [7] ∧
    "audio/wav" ≠ "audio/mpeg" := by
  refine ⟨rfl, ?_, by decide⟩
  decide

/-- C3 (amended): For every successful POST /tts request: when the `format`
query parameter is absent the resolved format is the WAV variant `wav_22050`
and the response carries Content-Type audio/wav with filename `speech.wav`;
when `format` is supplied with a non-empty value not starting with `wav_`,
the response carries Content-Type audio/mpeg with filename `speech.mp3`;
when it is supplied non-empty starting with `wav_`, audio/wav with
`speech.wav`; the Content-Disposition always has the form
`inline; filename="speech.<ext>"`. -/
theorem tts_format_content_type
    (cfg : Config) (req : TtsRequest) (status : Nat) (errText : String)
    (audio : List Nat)
    (ht : textBlank req.body.text = false)
    (hk : jsFalsy cfg.elevenApiKey = false)
    (hv : jsFalsy cfg.elevenVoiceId = false)
    (hok : respOk status = true) :
    (req.queryFormat = none →
      (ttsHandlerBody cfg req (.reply status errText audio)).response =
        .audio "audio/wav" "inline; filename=\"speech.wav\"" "wav_22050" audio) ∧
    (∀ s, req.queryFormat = some s → s ≠ "" → strStartsWith s "wav_" = false →
      (ttsHandlerBody cfg req (.reply status errText audio)).response =
        .audio "audio/mpeg" "inline; filename=\"speech.mp3\"" s audio) ∧
    (∀ s, req.queryFormat = some s → s ≠ "" → strStartsWith s "wav_" = true →
      (ttsHandlerBody cfg req (.reply status errText audio)).response =
        .audio "audio/wav" "inline; filename=\"speech.wav\"" s audio) := by
  refine ⟨fun hq => ?_, fun s hq hne hsw => ?_, fun s hq hne hsw => ?_⟩
  · simp [ttsHandlerBody, ht, hk, hv, ttsVendorPhase, hok, ttsAccept, ttsIsWav,
      resolveFormat, jsTruthyOr, hq, speechDisposition, wav_default_is_wav]
  · simp [ttsHandlerBody, ht, hk, hv, ttsVendorPhase, hok, ttsAccept, ttsIsWav,
      resolveFormat, jsTruthyOr, hq, hne, hsw, speechDisposition]
  · simp [ttsHandlerBody, ht, hk, hv, ttsVendorPhase, hok, ttsAccept, ttsIsWav,
      resolveFormat, jsTruthyOr, hq, hne, hsw, speechDisposition]

/-- Witness for C3 (amended): format absent gives WAV, a concrete MP3 format
gives audio/mpeg, a concrete WAV format gives audio/wav. -/
theorem tts_format_content_type_witness :
    (ttsHandlerBody ⟨none, some "k", some "v", none⟩
        ⟨none, ⟨some "hi", none⟩, none⟩ (.reply 200 "" [1])).response =
      .audio "audio/wav" "inline; filename=\"speech.wav\"" "wav_22050" [1] ∧
    (ttsHandlerBody ⟨none, some "k", some "v", none⟩
        ⟨none, ⟨some "hi", none⟩, some "mp3_44100_128"⟩ (.reply 200 "" [1])).response =
      .audio "audio/mpeg" "inline; filename=\"speech.mp3\"" "mp3_44100_128" [1] ∧
    (ttsHandlerBody ⟨none, some "k", some "v", none⟩
        ⟨none, ⟨some "hi", none⟩, some "wav_44100"⟩ (.reply 200 "" [1])).response =
      .audio "audio/wav" "inline; filename=\"speech.wav\"" "wav_44100" [1] := by
  refine ⟨?_, ?_, ?_⟩
  · exact (tts_format_content_type ⟨none, some "k", some "v", none⟩
      ⟨none, ⟨some "hi", none⟩, none⟩ 200 "" [1]
      (by decide) rfl rfl (by decide)).1 rfl
  · exact (tts_format_content_type ⟨none, some "k", some "v", none⟩
      ⟨none, ⟨some "hi", none⟩, some "mp3_44100_128"⟩ 200 "" [1]
      (by decide) rfl rfl (by decide)).2.1 "mp3_44100_128" rfl (by decide) (by decide)
  · exact (tts_format_content_type ⟨none, some "k", some "v", none⟩
      ⟨none, ⟨some "hi", none⟩, some "wav_44100"⟩ 200 "" [1]
      (by decide) rfl rfl (by decide)).2.2 "wav_44100" rfl (by decide) (by decide)

/-- Counterexample for C6: a `/explain` body carrying `imageBase64` as the
empty string (the field is present) with the OpenAI key unconfigured gets
400 from the input validation, not the claimed 500. -/
theorem explain_empty_image_counterexample :
    (explainHandlerBody ⟨none, none, none, none⟩ ⟨none, some "", none⟩
        (.reply 200 none ⟨none⟩)).response =
      .jsonError 400 "imageBase64 is required" none ∧
    ApiResponse.jsonError 400 "imageBase64 is required" none ≠
      .jsonError 500 "Missing OPENAI_API_KEY" none ∧
    jsFalsy (Config.mk none none none none).openaiApiKey = true := by
  refine ⟨?_, by decide, rfl⟩
  decide

/-- C6 (amended): For every POST /tts request with valid text where the
ElevenLabs API key or voice identifier is not configured, and for every
POST /explain request with a present and non-empty `imageBase64` where the
OpenAI API key is not configured, the handler responds 500 with a fixed
error message and makes no vendor call. -/
theorem missing_credentials_500
    (cfg : Config) (req : TtsRequest) (f : TtsFetch)
    (ereq : ExplainRequest) (ef : ExplainFetch)
    (ht : textBlank req.body.text = false)
    (hcred : jsFalsy cfg.elevenApiKey = true ∨ jsFalsy cfg.elevenVoiceId = true)
    (hi : jsFalsy ereq.imageBase64 = false)
    (ho : jsFalsy cfg.openaiApiKey = true) :
    (ttsHandlerBody cfg req f).response =
      .jsonError 500 "Missing ELEVENLABS_API_KEY or ELEVENLABS_VOICE_ID" none ∧
    (ttsHandlerBody cfg req f).vendorCall = none ∧
    (explainHandlerBody cfg ereq ef).response =
      .jsonError 500 "Missing OPENAI_API_KEY" none ∧
    (explainHandlerBody cfg ereq ef).vendorCall = none := by
  have hb : (jsFalsy cfg.elevenApiKey || jsFalsy cfg.elevenVoiceId) = true := by
    rcases hcred with h | h <;> simp [h]
  refine ⟨?_, ?_, ?_, ?_⟩ <;> simp [ttsHandlerBody, explainHandlerBody, ht, hb, hi, ho]

/-- Witness for C6 (amended): valid text with no ElevenLabs key, and a
non-empty image with no OpenAI key, both yield the fixed 500s and no vendor
call. -/
theorem missing_credentials_500_witness :
    (ttsHandlerBody ⟨none, none, some "v", none⟩
        ⟨none, ⟨some "hi", none⟩, none⟩ (.reply 200 "" [])).response =
      .jsonError 500 "Missing ELEVENLABS_API_KEY or ELEVENLABS_VOICE_ID" none ∧
    (ttsHandlerBody ⟨none, none, some "v", none⟩
        ⟨none, ⟨some "hi", none⟩, none⟩ (.reply 200 "" [])).vendorCall = none ∧
    (explainHandlerBody ⟨none, none, some "v", none⟩
        ⟨none, some "img", none⟩ (.reply 200 none ⟨none⟩)).response =
      .jsonError 500 "Missing OPENAI_API_KEY" none ∧
    (explainHandlerBody ⟨none, none, some "v", none⟩
        ⟨none, some "img", none⟩ (.reply 200 none ⟨none⟩)).vendorCall = none :=
  missing_credentials_500 ⟨none, none, some "v", none⟩
    ⟨none, ⟨some "hi", none⟩, none⟩ (.reply 200 "" [])
    ⟨none, some "img", none⟩ (.reply 200 none ⟨none⟩)
    (by decide) (Or.inl rfl) rfl rfl

/-- Counterexample for C7: a vendor response whose FIRST choice has no
content but whose SECOND choice contains the non-empty text "hello" — the
response contains at least one choice with non-empty message content, yet
the code returns the fallback string, not that content. -/
theorem explain_second_choice_counterexample :
    (explainHandlerBody ⟨none, none, none, some "o"⟩ ⟨none, some "img", none⟩
        (.reply 200 none
          ⟨some [⟨none⟩, ⟨some ⟨some "hello"⟩⟩]⟩)).response =
      .jsonExplanation "No explanation generated" ∧
    "No explanation generated" ≠ "hello" := by
  refine ⟨?_, by decide⟩
  decide

/-- C7 (amended): For every successful POST /explain request: if the
optional-chaining extraction over the FIRST choice
(`data.choices?.[0]?.message?.content`) yields a non-empty string, the
returned `explanation` equals that content exactly; if the chain yields
nothing (choices/message/content missing), the returned `explanation` equals
the fixed fallback string "No explanation generated". -/
theorem explain_first_choice_content
    (cfg : Config) (ereq : ExplainRequest) (status : Nat)
    (errMessage : Option String) (data : OpenAIData)
    (hi : jsFalsy ereq.imageBase64 = false)
    (ho : jsFalsy cfg.openaiApiKey = false)
    (hok : respOk status = true) :
    (∀ c, extractContent data = some c → c ≠ "" →
      (explainHandlerBody cfg ereq (.reply status errMessage data)).response =
        .jsonExplanation c) ∧
    (extractContent data = none →
      (explainHandlerBody cfg ereq (.reply status errMessage data)).response =
        .jsonExplanation "No explanation generated") := by
  refine ⟨fun c hc hne => ?_, fun hc => ?_⟩
  · simp [explainHandlerBody, hi, ho, hok, explanationOf, jsTruthyOr, hc, hne]
  · simp [explainHandlerBody, hi, ho, hok, explanationOf, jsTruthyOr, hc]

/-- Witness for C7 (amended): one choice carrying "こんにちは" is returned
exactly; an empty choices array yields the fallback. -/
theorem explain_first_choice_content_witness :
    (explainHandlerBody ⟨none, none, none, some "o"⟩ ⟨none, some "img", none⟩
        (.reply 200 none ⟨some [⟨some ⟨some "こんにちは"⟩⟩]⟩)).response =
      .jsonExplanation "こんにちは" ∧
    (explainHandlerBody ⟨none, none, none, some "o"⟩ ⟨none, some "img", none⟩
        (.reply 200 none ⟨some []⟩)).response =
      .jsonExplanation "No explanation generated" := by
  refine ⟨?_, ?_⟩
  · exact (explain_first_choice_content ⟨none, none, none, some "o"⟩
      ⟨none, some "img", none⟩ 200 none ⟨some [⟨some ⟨some "こんにちは"⟩⟩]⟩
      rfl rfl (by decide)).1 "こんにちは" rfl (by decide)
  · exact (explain_first_choice_content ⟨none, none, none, some "o"⟩
      ⟨none, some "img", none⟩ 200 none ⟨some []⟩
      rfl rfl (by decide)).2 rfl
